import Mathlib

/-!
A verification development for the handler-registry and event-posting core of the
kopf repository.  The definitions below are a shallow embedding of
`kopf/reactor/registries.py` and `kopf/clients/events.py`; data types whose
declaring module is not part of the sources (`kopf/structs/handlers.py`,
`kopf/reactor/causation.py`, `kopf/structs/bodies.py`) are modelled from the
specification, as indicated in their doc comments.
-/

namespace Kopf

/-- Modelled from the spec: the `reason` values of a resource-changing cause,
`{CREATE, UPDATE, DELETE}` (`causation.Reason`; the module is not in the sources). -/
inductive Reason where
  | create
  | update
  | delete
deriving DecidableEq

/-- Modelled from the spec: the activity phases of `handlers.Activity`
(`AUTHENTICATION`, etc.; the module is not in the sources). -/
inductive Activity where
  | startup
  | cleanup
  | authentication
  | probe
deriving DecidableEq

/-- Modelled from the spec: a field path is a sequence of path segments
(`dicts.FieldPath`, e.g. `spec.tasks.0.name` is the four segments
`["spec", "tasks", "0", "name"]`). -/
abbrev FieldPath := List String

/-- Modelled from the spec: the part of a resource body consulted by the filters —
`body['metadata']['labels']` and `body['metadata']['annotations']`, each a mapping
from key to value, represented as an association list with distinct keys. -/
structure Body where
  labels : List (String × String)
  annotations : List (String × String)

/-- Modelled from the spec: one value of a label/annotation filter mapping
(`filters.MetaFilter`; the module is not in the sources): a literal string,
the `PRESENT` token, the `ABSENT` token, or a predicate callable.  A predicate
receives the observed value (or `None`) and the cause's keyword context, here
represented by the cause itself. -/
inductive MetaValue (kappa : Type) where
  | absent
  | present
  | literal (value : String)
  | callable (p : Option String → kappa → Bool)

/-- Modelled from the spec: one entry of a cause's diff — an ordered tuple
`(operation, field_path, old, new)`.  Only the field path is consulted here. -/
structure DiffItem where
  op : String
  field : FieldPath
  old : String
  new : String

/-- Modelled from the spec: `causation.ResourceWatchingCause` — a raw per-event
cause; only the body is consulted by the matching engine. -/
structure ResourceWatchingCause where
  body : Body

/-- Modelled from the spec: `causation.ResourceSpawningCause` — used solely to
decide finalizer necessity; only the body is consulted by the matching engine. -/
structure ResourceSpawningCause where
  body : Body

/-- Modelled from the spec: `causation.ResourceChangingCause` with the fields
consulted by the registry: body, `reason`, `diff`, `initial`, `deleted`. -/
structure ResourceChangingCause where
  body : Body
  reason : Reason
  diff : List DiffItem
  initial : Bool
  deleted : Bool

/-- Modelled from the spec: `handlers.ActivityHandler` restricted to the fields
consulted by `ActivityRegistry`: the id, the underlying callback's identity
(`id(handler.fn)`, a machine integer, here a `Nat` tag named `fnId`), the
optional activity, and the `_fallback` mark (field `fallback` here). -/
structure ActivityHandler where
  id : String
  fnId : Nat
  activity : Option Activity
  fallback : Bool

/-- Modelled from the spec: `handlers.ResourceWatchingHandler` restricted to the
fields consulted by the matching engine.  `fnId` is the identity of the
underlying callback `fn`; `whenCb` is the optional `when` predicate. -/
structure ResourceWatchingHandler where
  id : String
  fnId : Nat
  labels : List (String × MetaValue ResourceWatchingCause)
  annotations : List (String × MetaValue ResourceWatchingCause)
  whenCb : Option (ResourceWatchingCause → Bool)

/-- Modelled from the spec: `handlers.ResourceSpawningHandler` restricted to the
fields consulted by the matching engine and `requires_finalizer`. -/
structure ResourceSpawningHandler where
  id : String
  fnId : Nat
  labels : List (String × MetaValue ResourceSpawningCause)
  annotations : List (String × MetaValue ResourceSpawningCause)
  whenCb : Option (ResourceSpawningCause → Bool)
  requires_finalizer : Bool

/-- Modelled from the spec: `handlers.ResourceChangingHandler` restricted to the
fields consulted by the matching engine: filters, `reason`, `field` (the empty
path stands for "no field scope", Python's `None`/empty tuple, both falsy),
`initial`, `deleted`, `requires_finalizer`. -/
structure ResourceChangingHandler where
  id : String
  fnId : Nat
  labels : List (String × MetaValue ResourceChangingCause)
  annotations : List (String × MetaValue ResourceChangingCause)
  whenCb : Option (ResourceChangingCause → Bool)
  reason : Option Reason
  field : FieldPath
  initial : Bool
  deleted : Bool
  requires_finalizer : Bool

/-- Dictionary lookup `content.get(key, None)` on the association-list model. -/
def metaLookup (content : List (String × String)) (key : String) : Option String :=
  (content.find? (fun kv => kv.1 == key)).map (fun kv => kv.2)

/-- Embeds `_matches_metadata` (registries.py:378-403): every declared key must
pass its constraint; `ABSENT` requires the key missing, `PRESENT` requires it
present, a callable must return true on the observed value, a literal requires
the key present with exactly that value. -/
def matchesMetadata {kappa : Type} (pattern : List (String × MetaValue kappa))
    (content : List (String × String)) (cause : kappa) : Bool :=
  pattern.all fun kv =>
    match kv.2 with
    | MetaValue.absent => (metaLookup content kv.1).isNone
    | MetaValue.present => (metaLookup content kv.1).isSome
    | MetaValue.callable p => p (metaLookup content kv.1) cause
    | MetaValue.literal v =>
      match metaLookup content kv.1 with
      | none => false
      | some w => v == w

/-- Embeds `_matches_field` (registries.py:343-353) for a resource-changing
handler: pass when fields are ignored or the handler has no field scope;
otherwise some changed field must extend the handler's field path or be a
segment-wise prefix of it (`changed_field[:len(handler.field)] == handler.field
or changed_field == handler.field[:len(changed_field)]`). -/
def matches_field (h : ResourceChangingHandler) (changed_fields : List FieldPath)
    (ignore_fields : Bool) : Bool :=
  ignore_fields || h.field.isEmpty ||
    changed_fields.any fun changed_field =>
      changed_field.take h.field.length == h.field ||
      changed_field == h.field.take changed_field.length

/-- Embeds `_matches_labels` (registries.py:356-364): vacuously true without
declared label filters, else the metadata check against the body's labels. -/
def matches_labels {kappa : Type} (hlabels : List (String × MetaValue kappa))
    (body : Body) (cause : kappa) : Bool :=
  hlabels.isEmpty || matchesMetadata hlabels body.labels cause

/-- Embeds `_matches_annotations` (registries.py:367-375). -/
def matches_annotations {kappa : Type} (hannotations : List (String × MetaValue kappa))
    (body : Body) (cause : kappa) : Bool :=
  hannotations.isEmpty || matchesMetadata hannotations body.annotations cause

/-- Embeds `_matches_filter_callback` (registries.py:406-415): true when no
`when` predicate is declared, else the predicate's verdict on the cause. -/
def matches_filter_callback {kappa : Type} (whenCb : Option (kappa → Bool))
    (cause : kappa) : Bool :=
  match whenCb with
  | none => true
  | some p => p cause

/-- Embeds `match` (registries.py:327-340) for a resource-changing handler:
the conjunction of the field, label, annotation and `when` checks.  (Python's
`changed_fields or {}` turns an empty collection into an empty one; the list
model passes it through unchanged.) -/
def matchChanging (h : ResourceChangingHandler) (cause : ResourceChangingCause)
    (changed_fields : List FieldPath) (ignore_fields : Bool) : Bool :=
  matches_field h changed_fields ignore_fields &&
  matches_labels h.labels cause.body cause &&
  matches_annotations h.annotations cause.body cause &&
  matches_filter_callback h.whenCb cause

/-- Embeds `match` (registries.py:327-340) for a resource-spawning handler;
`_matches_field` passes unconditionally because the handler is not a
`ResourceChangingHandler`. -/
def matchSpawning (h : ResourceSpawningHandler) (cause : ResourceSpawningCause) : Bool :=
  matches_labels h.labels cause.body cause &&
  matches_annotations h.annotations cause.body cause &&
  matches_filter_callback h.whenCb cause

/-- Embeds `match` (registries.py:327-340) for a resource-watching handler;
the watching registry calls it with `ignore_fields=True`, so the field check
passes unconditionally. -/
def matchWatching (h : ResourceWatchingHandler) (cause : ResourceWatchingCause) : Bool :=
  matches_labels h.labels cause.body cause &&
  matches_annotations h.annotations cause.body cause &&
  matches_filter_callback h.whenCb cause

/-- The recursion of `_deduplicated` (registries.py:295-324) with the `seen_ids`
set made explicit: yield a handler only when its callback identity was not seen
before, accumulating seen identities. -/
def dedupAux {alpha : Type} (fnId : alpha → Nat) : List Nat → List alpha → List alpha
  | _, [] => []
  | seen, h :: t =>
    if seen.contains (fnId h) then dedupAux fnId seen t
    else h :: dedupAux fnId (fnId h :: seen) t

/-- Embeds `_deduplicated` (registries.py:295-324): keep each handler only the
first time its underlying callback identity (`id(handler.fn)`) is seen. -/
def deduplicated {alpha : Type} (fnId : alpha → Nat) (l : List alpha) : List alpha :=
  dedupAux fnId [] l

/-- Embeds `ActivityRegistry` (registries.py:56-82): an ordered list of activity
handlers populated by `append`. -/
structure ActivityRegistry where
  handlers : List ActivityHandler

/-- Embeds `ActivityRegistry.iter_handlers` (registries.py:66-82) with Python's
operator precedence kept exactly: the first pass yields handlers satisfying
`handler.activity is None or (handler.activity == activity and not
handler._fallback)`, and the second pass runs only when the first yielded
nothing. -/
def ActivityRegistry.iter_handlers (r : ActivityRegistry) (activity : Activity) :
    List ActivityHandler :=
  let first := r.handlers.filter fun h =>
    h.activity.isNone || (decide (h.activity = some activity) && !h.fallback)
  if first.isEmpty then
    r.handlers.filter fun h =>
      h.activity.isNone || (decide (h.activity = some activity) && h.fallback)
  else first

/-- Embeds `ActivityRegistry.get_handlers` (registries.py:60-64). -/
def ActivityRegistry.get_handlers (r : ActivityRegistry) (activity : Activity) :
    List ActivityHandler :=
  deduplicated (fun h => h.fnId) (r.iter_handlers activity)

/-- Embeds `ResourceWatchingRegistry` (registries.py:105-118). -/
structure ResourceWatchingRegistry where
  handlers : List ResourceWatchingHandler

/-- Embeds `ResourceWatchingRegistry.iter_handlers` (registries.py:110-118):
non-excluded handlers matching with `ignore_fields=True`. -/
def ResourceWatchingRegistry.iter_handlers (r : ResourceWatchingRegistry)
    (cause : ResourceWatchingCause) (excluded : List String) :
    List ResourceWatchingHandler :=
  r.handlers.filter fun h => !(excluded.contains h.id) && matchWatching h cause

/-- Embeds `ResourceRegistry.get_handlers` (registries.py:89-94) for the
watching registry. -/
def ResourceWatchingRegistry.get_handlers (r : ResourceWatchingRegistry)
    (cause : ResourceWatchingCause) (excluded : List String) :
    List ResourceWatchingHandler :=
  deduplicated (fun h => h.fnId) (r.iter_handlers cause excluded)

/-- Embeds `ResourceSpawningRegistry` (registries.py:121-150). -/
structure ResourceSpawningRegistry where
  handlers : List ResourceSpawningHandler

/-- Embeds `ResourceSpawningRegistry.iter_handlers` (registries.py:127-135):
non-excluded handlers matching the cause. -/
def ResourceSpawningRegistry.iter_handlers (r : ResourceSpawningRegistry)
    (cause : ResourceSpawningCause) (excluded : List String) :
    List ResourceSpawningHandler :=
  r.handlers.filter fun h => !(excluded.contains h.id) && matchSpawning h cause

/-- Embeds `ResourceRegistry.get_handlers` (registries.py:89-94) for the
spawning registry. -/
def ResourceSpawningRegistry.get_handlers (r : ResourceSpawningRegistry)
    (cause : ResourceSpawningCause) (excluded : List String) :
    List ResourceSpawningHandler :=
  deduplicated (fun h => h.fnId) (r.iter_handlers cause excluded)

/-- Embeds `ResourceSpawningRegistry.requires_finalizer` (registries.py:137-150):
true as soon as some non-excluded handler declares `requires_finalizer` and
matches the cause (with `match`'s default empty changed-fields set). -/
def ResourceSpawningRegistry.requires_finalizer (r : ResourceSpawningRegistry)
    (cause : ResourceSpawningCause) (excluded : List String) : Bool :=
  r.handlers.any fun h =>
    !(excluded.contains h.id) && h.requires_finalizer && matchSpawning h cause

/-- Embeds `ResourceChangingRegistry` (registries.py:153-199). -/
structure ResourceChangingRegistry where
  handlers : List ResourceChangingHandler

/-- Embeds `ResourceChangingRegistry.iter_handlers` (registries.py:158-172):
the changed fields are collected from the cause's diff; a handler is yielded
when it is not excluded, its reason is unset or equal to the cause's reason,
it is not an initial handler on a non-initial cause, it is not an initial
handler on a deletion cause without the deletion opt-in, and the general
match passes. -/
def ResourceChangingRegistry.iter_handlers (r : ResourceChangingRegistry)
    (cause : ResourceChangingCause) (excluded : List String) :
    List ResourceChangingHandler :=
  let changed_fields : List FieldPath := cause.diff.map (fun d => d.field)
  r.handlers.filter fun h =>
    !(excluded.contains h.id) &&
    (h.reason.isNone || decide (h.reason = some cause.reason)) &&
    !(h.initial && !cause.initial) &&
    !(h.initial && cause.deleted && !h.deleted) &&
    matchChanging h cause changed_fields false

/-- Embeds `ResourceRegistry.get_handlers` (registries.py:89-94) for the
changing registry. -/
def ResourceChangingRegistry.get_handlers (r : ResourceChangingRegistry)
    (cause : ResourceChangingCause) (excluded : List String) :
    List ResourceChangingHandler :=
  deduplicated (fun h => h.fnId) (r.iter_handlers cause excluded)

/-- Embeds `ResourceChangingRegistry.requires_finalizer` (registries.py:186-199):
true as soon as some non-excluded handler declares `requires_finalizer` and
matches the cause with `match`'s default arguments (empty changed-fields set,
fields not ignored); none of the reason/initial/deleted gating of
`iter_handlers` is applied. -/
def ResourceChangingRegistry.requires_finalizer (r : ResourceChangingRegistry)
    (cause : ResourceChangingCause) (excluded : List String) : Bool :=
  r.handlers.any fun h =>
    !(excluded.contains h.id) && h.requires_finalizer && matchChanging h cause [] false

/-- Modelled from the spec: the shapes of Python values that `get_callable_id`
(registries.py:275-292) distinguishes.  `pynone` is Python's `None`; `partApp`
is a `functools.partial` wrapping its `func`; `wrapped` is a callable carrying a
`__wrapped__` attribute (a `functools.wraps` layer); `lambdaFn` is a
`FunctionType` named `<lambda>` with its defining source path and first line;
`function`/`method` are named `FunctionType`/`MethodType` values carrying their
qualified name; `other` is any other object, identified by its repr. -/
inductive PyCallable where
  | pynone
  | partApp (func : PyCallable)
  | wrapped (inner : PyCallable)
  | lambdaFn (path : String) (line : Nat)
  | function (qualname : String)
  | method (qualname : String)
  | other (objRepr : String)
deriving DecidableEq

/-- Embeds `get_callable_id` (registries.py:275-292); a raised `ValueError`
becomes an `Except.error`. -/
def get_callable_id : PyCallable → Except String String
  | PyCallable.pynone => Except.error "Cannot build a persistent id of None."
  | PyCallable.partApp func => get_callable_id func
  | PyCallable.wrapped inner => get_callable_id inner
  | PyCallable.lambdaFn path line =>
    Except.ok ("lambda:" ++ path ++ ":" ++ toString line)
  | PyCallable.function qualname => Except.ok qualname
  | PyCallable.method qualname => Except.ok qualname
  | PyCallable.other objRepr => Except.error ("Cannot get id of " ++ objRepr ++ ".")

/-- Embeds `generate_id` (registries.py:262-272): the explicit id wins, else the
callable's derived id; then a non-empty suffix and a non-empty prefix are
attached with `/` separators (Python's `not suffix` is true for both `None`
and the empty string). -/
def generate_id (fn : PyCallable) (oid : Option String)
    (pfx sfx : Option String) : Except String String :=
  match (match oid with | some i => Except.ok i | none => get_callable_id fn) with
  | Except.error e => Except.error e
  | Except.ok rid =>
    let rid1 := match sfx with
      | none => rid
      | some s => if s = "" then rid else rid ++ ("/" ++ s)
    let rid2 := match pfx with
      | none => rid1
      | some p => if p = "" then rid1 else (p ++ "/") ++ rid1
    Except.ok rid2

/-- The shapes of callables from which `get_callable_id` derives an identity:
functions, methods and lambdas, through any depth of partial application or
wrapping; `None` and all other objects have no derivable identity. -/
def derivable : PyCallable → Bool
  | PyCallable.pynone => false
  | PyCallable.partApp func => derivable func
  | PyCallable.wrapped inner => derivable inner
  | PyCallable.lambdaFn _ _ => true
  | PyCallable.function _ => true
  | PyCallable.method _ => true
  | PyCallable.other _ => false

/-- Follows the spec's words (for the refinement claim about explicit ids): the
composition `prefix/id/suffix` where an absent or empty prefix or suffix
segment is omitted together with its separator. -/
def composeId (pfx : Option String) (i : String) (sfx : Option String) : String :=
  let j := if sfx.getD "" = "" then i else i ++ ("/" ++ sfx.getD "")
  if pfx.getD "" = "" then j else (pfx.getD "" ++ "/") ++ j

/-- Embeds `MAX_MESSAGE_LENGTH` (events.py:15). -/
def MAX_MESSAGE_LENGTH : Nat := 1024

/-- Embeds `CUT_MESSAGE_INFIX = '...'` (events.py:16); messages are lists of
characters, so the marker is the three-character list. -/
def cutMessageMarker : List Char := ['.', '.', '.']

/-- Embeds the message-shortening step of `post_event` (events.py:41-46).
For a message over the cap, Python takes
`message[:MAX_MESSAGE_LENGTH // 2 - (len(infix) // 2)]` as the head and
`message[-MAX_MESSAGE_LENGTH // 2 + (len(infix) - len(infix) // 2):]` as the
tail; the tail slice starts at the negative index `-(512 - 2)`, i.e. keeps the
last `512 - 2` characters of a message longer than that. -/
def shortenMessage (message : List Char) : List Char :=
  if message.length > MAX_MESSAGE_LENGTH then
    let pfx := message.take (MAX_MESSAGE_LENGTH / 2 - cutMessageMarker.length / 2)
    let sfx := message.drop
      (message.length -
        (MAX_MESSAGE_LENGTH / 2 - (cutMessageMarker.length - cutMessageMarker.length / 2)))
    pfx ++ cutMessageMarker ++ sfx
  else message

/-- Modelled from the spec: `bodies.ObjectReference` (the module is not in the
sources) — the reference dict of the involved object; `ns` is its
`namespace` entry, absent (`none`) or possibly empty. -/
structure ObjectReference where
  apiVersion : Option String
  kind : Option String
  name : Option String
  uid : Option String
  ns : Option String
deriving DecidableEq

/-- The exception classes relevant to `post_event` (events.py:71-83): the two
caught HTTP error classes (`requests.exceptions.HTTPError`,
`pykube.exceptions.HTTPError`) and every other raisable error. -/
inductive PyError where
  | requestsHTTPError (msg : String)
  | pykubeHTTPError (msg : String)
  | otherError (msg : String)
deriving DecidableEq

/-- Whether an error is one of the two classes named in the `except` clause of
`post_event` (events.py:78). -/
def PyError.isHTTPError : PyError → Bool
  | PyError.requestsHTTPError _ => true
  | PyError.pykubeHTTPError _ => true
  | PyError.otherError _ => false

/-- The event body built by `post_event` (events.py:48-69), with the
constant fields kept and the timestamp supplied as an input. -/
structure EventBody where
  metadataNamespace : String
  generateName : String
  action : String
  type : String
  reason : String
  message : List Char
  reportingComponent : String
  reportingInstance : String
  sourceComponent : String
  involvedObject : ObjectReference
  firstTimestamp : String
  lastTimestamp : String
  eventTime : String

/-- The observable outcome of a completed `post_event` call: the event body was
posted, or the posting failed with a caught HTTP error that was logged as a
warning and discarded. -/
inductive PostEventResult where
  | posted (body : EventBody)
  | warned (body : EventBody) (e : PyError)

/-- The event body carried by a completed `post_event` outcome. -/
def PostEventResult.body : PostEventResult → EventBody
  | PostEventResult.posted b => b
  | PostEventResult.warned b _ => b

/-- Whether `post_event` must fall back to the configured namespace: Python's
`ref.get('namespace') or auth.get_pykube_cfg().namespace` consults the
configuration when the reference's namespace is absent or empty (falsy). -/
def nsFallbackNeeded (ref : ObjectReference) : Bool :=
  match ref.ns with
  | none => true
  | some s => s == ""

/-- Embeds the namespace resolution of `post_event` (events.py:37):
`ref.get('namespace') or auth.get_pykube_cfg().namespace` — the reference's
namespace when present and non-empty (non-falsy), else the configured
namespace, whose lookup may itself fail. -/
def resolveNs (cfgNs : Except PyError String) (refNs : Option String) :
    Except PyError String :=
  match refNs with
  | some s => if s = "" then cfgNs else Except.ok s
  | none => cfgNs

/-- Embeds the `try`/`except` block of `post_event` (events.py:71-83): on a
successful create the event body was posted; a failing create raising one of
the two caught HTTP error classes is swallowed with a logged warning; any
other error propagates. -/
def post_event_attempt (createResult : Except PyError Unit) (body : EventBody) :
    Except PyError PostEventResult :=
  match createResult with
  | Except.ok _ => Except.ok (PostEventResult.posted body)
  | Except.error e =>
    if e.isHTTPError then Except.ok (PostEventResult.warned body e)
    else Except.error e

/-- Embeds `post_event` (events.py:19-83).  The two external effects are passed
in as their results: `cfgNs` is `auth.get_pykube_cfg().namespace` (consulted
outside the `try` block, so its failure propagates), and `createResult` is the
outcome of the `obj.create` call for the constructed event.  The message is
shortened, the body is built, and the create attempt is performed under the
`try`/`except` block embedded as `post_event_attempt`. -/
def post_event (cfgNs : Except PyError String) (createResult : Except PyError Unit)
    (ref : ObjectReference) (type reason : String) (message : List Char)
    (now : String) : Except PyError PostEventResult :=
  match resolveNs cfgNs ref.ns with
  | Except.error e => Except.error e
  | Except.ok nsp =>
  let message := shortenMessage message
  let full_ref : ObjectReference := { ref with ns := some nsp }
  let body : EventBody := {
    metadataNamespace := nsp
    generateName := "kopf-event-"
    action := "Action?"
    type := type
    reason := reason
    message := message
    reportingComponent := "kopf"
    reportingInstance := "dev"
    sourceComponent := "kopf"
    involvedObject := full_ref
    firstTimestamp := now ++ "Z"
    lastTimestamp := now ++ "Z"
    eventTime := now ++ "Z" }
  post_event_attempt createResult body

/-- A callback registered for creation causes (`@kopf.on.create` style); the
callback identity is the tag 7. -/
def c1Handler1 : ResourceChangingHandler :=
  { id := "create_fn", fnId := 7, labels := [], annotations := [], whenCb := none,
    reason := some Reason.create, field := [], initial := false, deleted := false,
    requires_finalizer := false }

/-- The same callback (identity 7) registered a second time for resuming
(`@kopf.on.resume` style: no reason, `initial=True`). -/
def c1Handler2 : ResourceChangingHandler :=
  { c1Handler1 with id := "resume_fn", reason := none, initial := true }

/-- A registry with the same callback registered under two different triggering
conditions. -/
def c1Registry : ResourceChangingRegistry :=
  { handlers := [c1Handler1, c1Handler2] }

/-- A creation-during-downtime cause: reason CREATE and `initial=True`, which
matches both registrations of callback 7. -/
def c1Cause : ResourceChangingCause :=
  { body := { labels := [], annotations := [] }, reason := Reason.create,
    diff := [], initial := true, deleted := false }

/-- A change handler scoped to the field `spec.tasks`. -/
def c2HandlerParent : ResourceChangingHandler :=
  { id := "on_tasks", fnId := 10, labels := [], annotations := [], whenCb := none,
    reason := none, field := ["spec", "tasks"], initial := false, deleted := false,
    requires_finalizer := false }

/-- A change handler scoped to the field `spec.tasks.0.name`. -/
def c2HandlerChild : ResourceChangingHandler :=
  { c2HandlerParent with
    id := "on_task_name"
    fnId := 11
    field := ["spec", "tasks", "0", "name"] }

/-- A fallback activity handler with no activity restriction
(`activity=None, _fallback=True`). -/
def c3FallbackHandler : ActivityHandler :=
  { id := "login_fallback", fnId := 20, activity := none, fallback := true }

/-- A user-supplied (non-fallback) authentication handler. -/
def c3RegularHandler : ActivityHandler :=
  { id := "login_user", fnId := 21, activity := some Activity.authentication,
    fallback := false }

/-- A registry holding the unrestricted fallback handler and a matching regular
handler. -/
def c3Registry : ActivityRegistry :=
  { handlers := [c3FallbackHandler, c3RegularHandler] }

/-- An initial-only handler without the deletion opt-in. -/
def c5Handler : ResourceChangingHandler :=
  { id := "initial_only", fnId := 30, labels := [], annotations := [], whenCb := none,
    reason := none, field := [], initial := true, deleted := false,
    requires_finalizer := false }

/-- A registry holding only the initial-only handler. -/
def c5Registry : ResourceChangingRegistry :=
  { handlers := [c5Handler] }

/-- A deletion cause that is simultaneously an initial cause. -/
def c5Cause : ResourceChangingCause :=
  { body := { labels := [], annotations := [] }, reason := Reason.delete,
    diff := [], initial := true, deleted := true }

/-- A fully populated object reference with a non-empty namespace. -/
def c7Ref : ObjectReference :=
  { apiVersion := some "zalando.org/v1", kind := some "KopfExample",
    name := some "kopf-example-1", uid := some "uid-1", ns := some "default" }

/-- A field-scoped deletion handler that demands a finalizer; its filters are
all vacuous. -/
def c9FieldHandler : ResourceChangingHandler :=
  { id := "delete_field_handler", fnId := 40, labels := [], annotations := [],
    whenCb := none, reason := some Reason.delete, field := ["spec", "x"],
    initial := false, deleted := false, requires_finalizer := true }

/-- A registry holding only the field-scoped finalizer-demanding handler. -/
def c9Registry : ResourceChangingRegistry :=
  { handlers := [c9FieldHandler] }

/-- A creation cause whose diff does touch `spec.x`. -/
def c9Cause : ResourceChangingCause :=
  { body := { labels := [], annotations := [] }, reason := Reason.create,
    diff := [{ op := "change", field := ["spec", "x"], old := "a", new := "b" }],
    initial := false, deleted := false }

/-- The finalizer-demanding deletion handler without a field scope, and also
initial-marked. -/
def c9wHandler : ResourceChangingHandler :=
  { c9FieldHandler with
    id := "delete_handler"
    fnId := 41
    field := []
    initial := true }

/-- A registry holding only the unscoped finalizer-demanding handler. -/
def c9wRegistry : ResourceChangingRegistry :=
  { handlers := [c9wHandler] }

/-- Once a callback identity is in the seen set, `dedupAux` never emits a
handler with that identity again. -/
theorem dedupAux_filter_of_mem {alpha : Type} (fnId : alpha → Nat) (f : Nat) :
    ∀ (l : List alpha) (seen : List Nat), f ∈ seen →
      (dedupAux fnId seen l).filter (fun h => fnId h == f) = [] := by
  intro l
  induction l with
  | nil => intro seen _; rfl
  | cons h t ih =>
    intro seen hf
    cases hc : seen.contains (fnId h) with
    | true =>
      simp only [dedupAux, hc, if_true]
      exact ih seen hf
    | false =>
      have hne : (fnId h == f) = false := by
        have hmem : fnId h ∉ seen := fun hm =>
          Bool.noConfusion ((List.elem_iff.mpr hm).symm.trans hc)
        exact beq_eq_false_iff_ne.mpr (fun he => hmem (he ▸ hf))
      simp only [dedupAux, hc]
      simp only [Bool.false_eq_true, if_false, List.filter_cons, hne]
      exact ih (fnId h :: seen) (List.mem_cons_of_mem _ hf)

/-- For a callback identity not yet seen, the handlers that `dedupAux` emits
with that identity are exactly the first input handler carrying it. -/
theorem dedupAux_filter_take_one {alpha : Type} (fnId : alpha → Nat) (f : Nat) :
    ∀ (l : List alpha) (seen : List Nat), f ∉ seen →
      (dedupAux fnId seen l).filter (fun h => fnId h == f) =
        (l.filter (fun h => fnId h == f)).take 1 := by
  intro l
  induction l with
  | nil => intro seen _; rfl
  | cons h t ih =>
    intro seen hf
    cases hc : seen.contains (fnId h) with
    | true =>
      have hmemh : fnId h ∈ seen := List.elem_iff.mp hc
      have hne : (fnId h == f) = false :=
        beq_eq_false_iff_ne.mpr (fun he => hf (he ▸ hmemh))
      simp only [dedupAux, hc, if_true, List.filter_cons, hne]
      exact ih seen hf
    | false =>
      cases hfe : (fnId h == f) with
      | true =>
        have heq : fnId h = f := beq_iff_eq.mp hfe
        have hf2 : f ∈ fnId h :: seen := heq ▸ List.mem_cons_self _ _
        simp only [dedupAux, hc, Bool.false_eq_true, if_false, List.filter_cons, hfe]
        simp [dedupAux_filter_of_mem fnId f t (fnId h :: seen) hf2]
      | false =>
        have hf2 : f ∉ fnId h :: seen := by
          intro hm
          cases List.mem_cons.mp hm with
          | inl he => exact absurd hfe (by simp [he.symm])
          | inr hs => exact hf hs
        simp only [dedupAux, hc, Bool.false_eq_true, if_false, List.filter_cons, hfe]
        exact ih (fnId h :: seen) hf2

/-- Everything `dedupAux` emits comes from its input list. -/
theorem mem_of_mem_dedupAux {alpha : Type} (fnId : alpha → Nat) :
    ∀ (l : List alpha) (seen : List Nat) (x : alpha),
      x ∈ dedupAux fnId seen l → x ∈ l := by
  intro l
  induction l with
  | nil => intro seen x hx; exact absurd hx (by simp [dedupAux])
  | cons h t ih =>
    intro seen x hx
    cases hc : seen.contains (fnId h) with
    | true =>
      simp only [dedupAux, hc, if_true] at hx
      exact List.mem_cons_of_mem _ (ih seen x hx)
    | false =>
      simp only [dedupAux, hc, Bool.false_eq_true, if_false] at hx
      cases List.mem_cons.mp hx with
      | inl he => exact he ▸ List.mem_cons_self _ _
      | inr hs => exact List.mem_cons_of_mem _ (ih (fnId h :: seen) x hs)

/-- Claim C1: for every resource registry (watching, spawning, changing) and
every cause, the records that `get_handlers` returns for one underlying
callback identity are exactly the first matching record of `iter_handlers`
(registration order) carrying that identity — in particular, when at least one
matching record carries the identity, exactly one record for it is returned,
so the callback is invoked once per cause, deduplicated by callback identity
rather than by handler id. -/
theorem c1_dedup_by_callback_identity :
    (∀ (r : ResourceWatchingRegistry) (cause : ResourceWatchingCause)
       (excluded : List String) (f : Nat),
       (r.get_handlers cause excluded).filter (fun h => h.fnId == f) =
         ((r.iter_handlers cause excluded).filter (fun h => h.fnId == f)).take 1 ∧
       ∀ h ∈ r.iter_handlers cause excluded, h.fnId = f →
         ((r.get_handlers cause excluded).filter (fun h => h.fnId == f)).length = 1) ∧
    (∀ (r : ResourceSpawningRegistry) (cause : ResourceSpawningCause)
       (excluded : List String) (f : Nat),
       (r.get_handlers cause excluded).filter (fun h => h.fnId == f) =
         ((r.iter_handlers cause excluded).filter (fun h => h.fnId == f)).take 1 ∧
       ∀ h ∈ r.iter_handlers cause excluded, h.fnId = f →
         ((r.get_handlers cause excluded).filter (fun h => h.fnId == f)).length = 1) ∧
    (∀ (r : ResourceChangingRegistry) (cause : ResourceChangingCause)
       (excluded : List String) (f : Nat),
       (r.get_handlers cause excluded).filter (fun h => h.fnId == f) =
         ((r.iter_handlers cause excluded).filter (fun h => h.fnId == f)).take 1 ∧
       ∀ h ∈ r.iter_handlers cause excluded, h.fnId = f →
         ((r.get_handlers cause excluded).filter (fun h => h.fnId == f)).length = 1) := by
  refine ⟨?_, ?_, ?_⟩ <;> intro r cause excluded f <;>
    refine ⟨dedupAux_filter_take_one _ f _ [] (List.not_mem_nil f), ?_⟩ <;>
    intro h hmem hfid
  all_goals {
    have hfilter : h ∈ (r.iter_handlers cause excluded).filter (fun h => h.fnId == f) :=
      List.mem_filter.mpr ⟨hmem, by simp [hfid]⟩
    have hne := List.ne_nil_of_mem hfilter
    obtain ⟨b, L, hb⟩ := List.exists_cons_of_ne_nil hne
    have key : (r.get_handlers cause excluded).filter (fun h => h.fnId == f) =
        ((r.iter_handlers cause excluded).filter (fun h => h.fnId == f)).take 1 :=
      dedupAux_filter_take_one _ f _ [] (List.not_mem_nil f)
    rw [key, hb]
    rfl
  }

/-- Claim C1 witness: one callback (identity 7) registered both for creation
and for resuming; a creation-during-downtime cause matches both records, yet
`get_handlers` returns exactly one record for that callback. -/
theorem c1_witness :
    ((c1Registry.get_handlers c1Cause []).filter (fun h => h.fnId == 7)).length = 1 :=
  (c1_dedup_by_callback_identity.2.2 c1Registry c1Cause [] 7).2 c1Handler1
    (by exact List.Mem.head _) rfl

/-- Claim C2: for a change-scoped handler with a non-empty field path and
fields not ignored, the field check passes exactly when some changed path is a
segment-wise prefix of the handler's path or the handler's path is a
segment-wise prefix of that changed path. -/
theorem c2_field_scope_bidirectional :
    ∀ (h : ResourceChangingHandler) (changed_fields : List FieldPath),
      h.field ≠ [] →
      (matches_field h changed_fields false = true ↔
        ∃ c ∈ changed_fields, c <+: h.field ∨ h.field <+: c) := by
  intro h changed_fields hne
  have hempty : h.field.isEmpty = false := by
    cases hf : h.field with
    | nil => exact absurd hf hne
    | cons a t => rfl
  unfold matches_field
  simp only [hempty, Bool.false_or, List.any_eq_true, Bool.or_eq_true, beq_iff_eq]
  constructor
  · rintro ⟨c, hm, hor⟩
    refine ⟨c, hm, ?_⟩
    cases hor with
    | inl h1 => exact Or.inr (List.prefix_iff_eq_take.mpr h1.symm)
    | inr h2 => exact Or.inl (List.prefix_iff_eq_take.mpr h2)
  · rintro ⟨c, hm, hor⟩
    refine ⟨c, hm, ?_⟩
    cases hor with
    | inl h1 => exact Or.inr (List.prefix_iff_eq_take.mp h1)
    | inr h2 => exact Or.inl (List.prefix_iff_eq_take.mp h2).symm

/-- Claim C2 witness: a handler scoped to `spec.tasks` passes the field check
for a changed-fields set containing `spec.tasks.0.name`, and a handler scoped
to `spec.tasks.0.name` passes it for a set containing `spec.tasks`. -/
theorem c2_witness :
    matches_field c2HandlerParent [["spec", "tasks", "0", "name"]] false = true ∧
    matches_field c2HandlerChild [["spec", "tasks"]] false = true :=
  ⟨(c2_field_scope_bidirectional c2HandlerParent [["spec", "tasks", "0", "name"]]
      (by decide)).mpr
      ⟨["spec", "tasks", "0", "name"], List.mem_cons_self _ _,
        Or.inr ⟨["0", "name"], rfl⟩⟩,
   (c2_field_scope_bidirectional c2HandlerChild [["spec", "tasks"]]
      (by decide)).mpr
      ⟨["spec", "tasks"], List.mem_cons_self _ _,
        Or.inl ⟨["0", "name"], rfl⟩⟩⟩

/-- Claim C3: evaluation at the failing input.  The registry holds a fallback
handler with no activity restriction and a non-fallback handler matching
AUTHENTICATION; although a non-fallback handler matches, `get_handlers` also
returns the fallback handler, because the unparenthesised condition
`handler.activity is None or handler.activity == activity and not
handler._fallback` admits any handler with `activity=None` into the
regular pass — contradicting the in-code comments ("Regular handlers go
first", "Fallback handlers -- only if there were no matching regular
handlers") and the claim. -/
theorem c3_fallback_yielded_despite_regular_match :
    c3Registry.get_handlers Activity.authentication =
      [c3FallbackHandler, c3RegularHandler] ∧
    c3FallbackHandler.fallback = true ∧
    c3RegularHandler.fallback = false ∧
    c3RegularHandler.activity = some Activity.authentication :=
  ⟨rfl, rfl, rfl, rfl⟩

/-- Claim C4: for both the spawning and the changing registry,
`requires_finalizer` is true exactly when some handler whose id is not
excluded declares `requires_finalizer=True` and matches the cause (with the
general match's default empty changed-fields set); for an empty registry it is
false. -/
theorem c4_requires_finalizer_iff :
    (∀ (r : ResourceChangingRegistry) (cause : ResourceChangingCause)
       (excluded : List String),
      r.requires_finalizer cause excluded = true ↔
        ∃ h ∈ r.handlers, excluded.contains h.id = false ∧
          h.requires_finalizer = true ∧ matchChanging h cause [] false = true) ∧
    (∀ (r : ResourceSpawningRegistry) (cause : ResourceSpawningCause)
       (excluded : List String),
      r.requires_finalizer cause excluded = true ↔
        ∃ h ∈ r.handlers, excluded.contains h.id = false ∧
          h.requires_finalizer = true ∧ matchSpawning h cause = true) ∧
    (∀ (cause : ResourceChangingCause) (excluded : List String),
      (ResourceChangingRegistry.mk []).requires_finalizer cause excluded = false) ∧
    (∀ (cause : ResourceSpawningCause) (excluded : List String),
      (ResourceSpawningRegistry.mk []).requires_finalizer cause excluded = false) := by
  refine ⟨?_, ?_, fun _ _ => rfl, fun _ _ => rfl⟩
  · intro r cause excluded
    simp only [ResourceChangingRegistry.requires_finalizer, List.any_eq_true,
      Bool.and_eq_true, Bool.not_eq_true']
    constructor
    · rintro ⟨h, hm, ⟨hx, hrf⟩, hmatch⟩
      exact ⟨h, hm, hx, hrf, hmatch⟩
    · rintro ⟨h, hm, hx, hrf, hmatch⟩
      exact ⟨h, hm, ⟨hx, hrf⟩, hmatch⟩
  · intro r cause excluded
    simp only [ResourceSpawningRegistry.requires_finalizer, List.any_eq_true,
      Bool.and_eq_true, Bool.not_eq_true']
    constructor
    · rintro ⟨h, hm, ⟨hx, hrf⟩, hmatch⟩
      exact ⟨h, hm, hx, hrf, hmatch⟩
    · rintro ⟨h, hm, hx, hrf, hmatch⟩
      exact ⟨h, hm, ⟨hx, hrf⟩, hmatch⟩

/-- Claim C5: on a deletion cause, an initial-marked handler without the
deletion opt-in is never contained in `get_handlers`, regardless of the
cause's initial flag, reason or diff. -/
theorem c5_initial_handler_never_on_deletion :
    ∀ (r : ResourceChangingRegistry) (cause : ResourceChangingCause)
      (excluded : List String) (h : ResourceChangingHandler),
      cause.deleted = true → h.initial = true → h.deleted = false →
      h ∉ r.get_handlers cause excluded := by
  intro r cause excluded h hcd hhi hhd hmem
  have hmem2 : h ∈ dedupAux (fun h : ResourceChangingHandler => h.fnId) []
      (r.iter_handlers cause excluded) := hmem
  have h1 : h ∈ r.iter_handlers cause excluded :=
    mem_of_mem_dedupAux (fun h => h.fnId) _ [] h hmem2
  simp only [ResourceChangingRegistry.iter_handlers] at h1
  have h2 := (List.mem_filter.mp h1).2
  simp [hcd, hhi, hhd] at h2

/-- Claim C5 witness: the initial-only handler is absent from the handlers
returned for a deletion cause. -/
theorem c5_witness : c5Handler ∉ c5Registry.get_handlers c5Cause [] :=
  c5_initial_handler_never_on_deletion c5Registry c5Cause [] c5Handler rfl rfl rfl

/-- Claim C6: a message over 1024 characters is replaced by exactly 1024
characters — the first 511 characters, the 3-character elision marker at the
midpoint, and the last 510 characters of the original; shorter messages pass
through unchanged; and `post_event` posts exactly the shortened message. -/
theorem c6_message_truncation :
    (∀ message : List Char,
      shortenMessage message =
        if 1024 < message.length then
          message.take 511 ++ cutMessageMarker ++ message.drop (message.length - 510)
        else message) ∧
    (∀ message : List Char, (shortenMessage message).length = min message.length 1024) ∧
    (∀ (cfgNs : Except PyError String) (createResult : Except PyError Unit)
       (ref : ObjectReference) (type reason : String) (message : List Char)
       (now : String),
      match post_event cfgNs createResult ref type reason message now with
      | Except.ok res => res.body.message = shortenMessage message
      | Except.error _ => True) := by
  have key : ∀ message : List Char,
      shortenMessage message =
        if 1024 < message.length then
          message.take 511 ++ cutMessageMarker ++ message.drop (message.length - 510)
        else message := fun message => rfl
  refine ⟨key, ?_, ?_⟩
  · intro message
    rw [key]
    by_cases hlen : 1024 < message.length
    · rw [if_pos hlen]
      have h1 : (message.take 511).length = 511 := by
        rw [List.length_take]
        omega
      have h2 : (message.drop (message.length - 510)).length = 510 := by
        rw [List.length_drop]
        omega
      simp only [List.length_append, h1, h2, cutMessageMarker]
      simp only [List.length_cons, List.length_nil]
      omega
    · rw [if_neg hlen]
      omega
  · intro cfgNs createResult ref type reason message now
    unfold post_event
    cases hr : resolveNs cfgNs ref.ns with
    | error e => exact trivial
    | ok nsp =>
      cases createResult with
      | ok u => exact rfl
      | error e =>
        cases e with
        | requestsHTTPError m => exact rfl
        | pykubeHTTPError m => exact rfl
        | otherError m => exact trivial


/-- The create attempt completes with an error exactly when the create call
failed with an error outside the two caught HTTP error classes. -/
theorem post_event_attempt_error_iff (createResult : Except PyError Unit)
    (b : EventBody) (e : PyError) :
    post_event_attempt createResult b = Except.error e ↔
      createResult = Except.error e ∧ e.isHTTPError = false := by
  cases createResult with
  | ok u =>
    constructor
    · intro h
      exact absurd h (by simp [post_event_attempt])
    · rintro ⟨h, _⟩
      exact absurd h (by simp)
  | error e2 =>
    cases he2 : e2.isHTTPError with
    | true =>
      constructor
      · intro h
        rw [post_event_attempt, he2] at h
        exact absurd h (by simp)
      · rintro ⟨h, hf⟩
        injection h with h12
        rw [h12] at he2
        rw [he2] at hf
        exact Bool.noConfusion hf
    | false =>
      rw [post_event_attempt, he2]
      simp only [Bool.false_eq_true, if_false]
      constructor
      · intro h
        injection h with h12
        exact ⟨by rw [h12], h12 ▸ he2⟩
      · rintro ⟨h, _⟩
        injection h with h12
        rw [h12]

/-- The namespace resolution fails exactly when the configuration fallback is
needed and the configuration lookup itself failed. -/
theorem resolveNs_error_iff (cfgNs : Except PyError String) (ref : ObjectReference)
    (e : PyError) :
    resolveNs cfgNs ref.ns = Except.error e ↔
      nsFallbackNeeded ref = true ∧ cfgNs = Except.error e := by
  cases href : ref.ns with
  | none => simp [resolveNs, nsFallbackNeeded, href]
  | some s =>
    by_cases hs : s = ""
    · subst hs
      simp [resolveNs, nsFallbackNeeded, href]
    · simp [resolveNs, nsFallbackNeeded, href, hs]

/-- A successfully resolved namespace came from a non-falsy reference
namespace or from a successful configuration lookup. -/
theorem resolveNs_ok_sources (cfgNs : Except PyError String) (ref : ObjectReference)
    (nsp : String) :
    resolveNs cfgNs ref.ns = Except.ok nsp →
      nsFallbackNeeded ref = false ∨ ∃ s, cfgNs = Except.ok s := by
  intro h
  cases href : ref.ns with
  | none =>
    rw [href, resolveNs] at h
    exact Or.inr ⟨nsp, h⟩
  | some s =>
    by_cases hs : s = ""
    · subst hs
      rw [href, resolveNs, if_pos rfl] at h
      exact Or.inr ⟨nsp, h⟩
    · refine Or.inl ?_
      simp [nsFallbackNeeded, href, hs]

/-- Conversely, a non-falsy reference namespace or a successful configuration
lookup makes the namespace resolution succeed. -/
theorem resolveNs_exists_ok (cfgNs : Except PyError String) (ref : ObjectReference) :
    (nsFallbackNeeded ref = false ∨ ∃ s, cfgNs = Except.ok s) →
      ∃ nsp, resolveNs cfgNs ref.ns = Except.ok nsp := by
  intro h
  cases href : ref.ns with
  | none =>
    rcases h with hfb | ⟨s0, hs0⟩
    · rw [nsFallbackNeeded, href] at hfb
      exact Bool.noConfusion hfb
    · exact ⟨s0, by rw [resolveNs]; exact hs0⟩
  | some s =>
    by_cases hs : s = ""
    · subst hs
      rcases h with hfb | ⟨s0, hs0⟩
      · rw [nsFallbackNeeded, href] at hfb
        exact absurd hfb (by simp)
      · exact ⟨s0, by rw [resolveNs, if_pos rfl]; exact hs0⟩
    · exact ⟨s, by rw [resolveNs, if_neg hs]⟩

/-- Claim C7 counterexample: a failure of the posting call that is not one of
the two caught HTTP error classes (here, a connection-reset style error)
propagates out of `post_event` instead of being caught — refuting "any failure
of the event-posting call is caught ... the function never propagates an error
to its caller" at this concrete input. -/
theorem c7_counterexample_error_propagates :
    post_event (Except.ok "default")
      (Except.error (PyError.otherError "connection reset"))
      c7Ref "Error" "Logging" ['h', 'i'] "2019-01-28T18:25:03.000000" =
      Except.error (PyError.otherError "connection reset") := rfl

/-- Claim C7 (amended): `post_event` completes with an error exactly when the
fallback namespace lookup (performed before the `try` block) is needed and
fails, or when the posting call fails with an error outside the two caught
HTTP error classes; HTTP-class failures of the posting call are caught, logged
as a warning, and discarded, and never propagate. -/
theorem c7_amended_error_characterization :
    ∀ (cfgNs : Except PyError String) (createResult : Except PyError Unit)
      (ref : ObjectReference) (type reason : String) (message : List Char)
      (now : String) (e : PyError),
      post_event cfgNs createResult ref type reason message now =
          Except.error e ↔
        ((nsFallbackNeeded ref = true ∧ cfgNs = Except.error e) ∨
         ((nsFallbackNeeded ref = false ∨ ∃ s, cfgNs = Except.ok s) ∧
          createResult = Except.error e ∧ e.isHTTPError = false)) := by
  intro cfgNs createResult ref type reason message now e
  constructor
  · intro h
    unfold post_event at h
    cases hr : resolveNs cfgNs ref.ns with
    | error e1 =>
      rw [hr] at h
      have h2 : Except.error e1 = Except.error e := h
      injection h2 with h12
      subst h12
      exact Or.inl ((resolveNs_error_iff cfgNs ref e1).mp hr)
    | ok nsp =>
      rw [hr] at h
      have h2 : post_event_attempt createResult _ = Except.error e := h
      have hcc := (post_event_attempt_error_iff createResult _ e).mp h2
      exact Or.inr ⟨resolveNs_ok_sources cfgNs ref nsp hr, hcc.1, hcc.2⟩
  · rintro (⟨hfb, hcfg⟩ | ⟨hns, hcr, hhe⟩)
    · have hr : resolveNs cfgNs ref.ns = Except.error e :=
        (resolveNs_error_iff cfgNs ref e).mpr ⟨hfb, hcfg⟩
      unfold post_event
      rw [hr]
    · obtain ⟨nsp, hr⟩ := resolveNs_exists_ok cfgNs ref hns
      unfold post_event
      rw [hr]
      exact (post_event_attempt_error_iff createResult _ e).mpr ⟨hcr, hhe⟩

/-- `get_callable_id` fails exactly on the values with no derivable identity. -/
theorem get_callable_id_error_iff :
    ∀ fn : PyCallable,
      (∃ e, get_callable_id fn = Except.error e) ↔ derivable fn = false := by
  intro fn
  induction fn with
  | pynone => simp [get_callable_id, derivable]
  | partApp func ih => simpa [get_callable_id, derivable] using ih
  | wrapped inner ih => simpa [get_callable_id, derivable] using ih
  | lambdaFn path line => simp [get_callable_id, derivable]
  | function qualname => simp [get_callable_id, derivable]
  | method qualname => simp [get_callable_id, derivable]
  | other objRepr => simp [get_callable_id, derivable]

/-- Claim C8: `generate_id` fails exactly when given no explicit id and no
callable with a derivable identity; otherwise it returns an id — the
qualified name for functions and methods, and `lambda:<path>:<line>` for
lambdas. -/
theorem c8_generate_id_error_characterization :
    (∀ (fn : PyCallable) (oid : Option String) (pfx sfx : Option String),
      (∃ e, generate_id fn oid pfx sfx = Except.error e) ↔
        (oid = none ∧ derivable fn = false)) ∧
    (∀ qualname, generate_id (PyCallable.function qualname) none none none =
      Except.ok qualname) ∧
    (∀ qualname, generate_id (PyCallable.method qualname) none none none =
      Except.ok qualname) ∧
    (∀ path line, generate_id (PyCallable.lambdaFn path line) none none none =
      Except.ok ("lambda:" ++ path ++ ":" ++ toString line)) := by
  refine ⟨?_, fun _ => rfl, fun _ => rfl, fun _ _ => rfl⟩
  intro fn oid pfx sfx
  cases oid with
  | some i =>
    constructor
    · rintro ⟨e, he⟩
      simp [generate_id] at he
    · rintro ⟨h, _⟩
      exact Option.noConfusion h
  | none =>
    cases hg : get_callable_id fn with
    | error e1 =>
      constructor
      · intro _
        exact ⟨rfl, (get_callable_id_error_iff fn).mp ⟨e1, hg⟩⟩
      · intro _
        exact ⟨e1, by simp [generate_id, hg]⟩
    | ok v =>
      constructor
      · rintro ⟨e, he⟩
        simp [generate_id, hg] at he
      · rintro ⟨_, hd⟩
        obtain ⟨e, he⟩ := (get_callable_id_error_iff fn).mpr hd
        rw [hg] at he
        exact absurd he (by simp)

/-- Claim C9 counterexample: the handler is registered, non-excluded, demands
a finalizer and all its label/annotation/`when` filters pass on the cause, yet
`requires_finalizer` is false — because the handler is field-scoped and
`requires_finalizer` calls the general match with an empty changed-fields set,
which fails every field-scoped handler (even though the cause's diff touches
exactly the handler's field). -/
theorem c9_counterexample_field_scoped_handler :
    c9FieldHandler ∈ c9Registry.handlers ∧
    ([] : List String).contains c9FieldHandler.id = false ∧
    c9FieldHandler.requires_finalizer = true ∧
    matches_labels c9FieldHandler.labels c9Cause.body c9Cause = true ∧
    matches_annotations c9FieldHandler.annotations c9Cause.body c9Cause = true ∧
    matches_filter_callback c9FieldHandler.whenCb c9Cause = true ∧
    c9Registry.requires_finalizer c9Cause [] = false :=
  ⟨List.mem_cons_self _ _, rfl, rfl, rfl, rfl, rfl, rfl⟩

/-- Claim C9 (amended): `ResourceChangingRegistry.requires_finalizer` applies
none of the reason/initial/deleted gating of `iter_handlers` and ignores the
cause's diff (it calls the general match with an empty changed-fields set): a
non-excluded handler with `requires_finalizer=True` that has no field scope
(the empty changed-fields set fails every field-scoped handler) and whose
label/annotation/`when` filters pass makes it return true, whatever the
handler's reason or initial mark and the cause's reason, initial, deleted
flags and diff. -/
theorem c9_amended_requires_finalizer_ignores_gating :
    ∀ (r : ResourceChangingRegistry) (cause : ResourceChangingCause)
      (excluded : List String) (h : ResourceChangingHandler),
      h ∈ r.handlers → excluded.contains h.id = false →
      h.requires_finalizer = true → h.field = [] →
      matches_labels h.labels cause.body cause = true →
      matches_annotations h.annotations cause.body cause = true →
      matches_filter_callback h.whenCb cause = true →
      r.requires_finalizer cause excluded = true := by
  intro r cause excluded h hmem hexcl hrf hfield hl ha hw
  unfold ResourceChangingRegistry.requires_finalizer
  rw [List.any_eq_true]
  refine ⟨h, hmem, ?_⟩
  have hnotmem : h.id ∉ excluded := fun hm =>
    Bool.noConfusion ((List.elem_iff.mpr hm).symm.trans hexcl)
  rw [matchChanging, matches_field, hfield]
  simp [hexcl, hnotmem, hrf, hl, ha, hw]

/-- Claim C9 witness: the unscoped variant of the finalizer-demanding deletion
handler — initial-marked, `reason=DELETE` — makes `requires_finalizer` true on
a non-initial CREATE cause. -/
theorem c9_witness : c9wRegistry.requires_finalizer c9Cause [] = true :=
  c9_amended_requires_finalizer_ignores_gating c9wRegistry c9Cause [] c9wHandler
    (List.mem_cons_self _ _) rfl rfl rfl rfl rfl rfl

/-- Claim C10: with an explicit id, `generate_id` never consults the callable
and never fails: for every callable value (including `None`) and every prefix
and suffix it returns the spec's composition `prefix/id/suffix` with empty
prefix/suffix segments omitted. -/
theorem c10_explicit_id_never_fails :
    ∀ (fn : PyCallable) (i : String) (pfx sfx : Option String),
      generate_id fn (some i) pfx sfx = Except.ok (composeId pfx i sfx) := by
  intro fn i pfx sfx
  cases pfx with
  | none =>
    cases sfx with
    | none => rfl
    | some s =>
      by_cases hs : s = ""
      · subst hs
        rfl
      · rw [generate_id, composeId]
        simp [hs]
  | some p =>
    cases sfx with
    | none =>
      by_cases hp : p = ""
      · subst hp
        rfl
      · rw [generate_id, composeId]
        simp [hp]
    | some s =>
      rw [generate_id, composeId]
      by_cases hs : s = "" <;> by_cases hp : p = "" <;> simp [hs, hp]
